import Mathlib

set_option maxRecDepth 16384
set_option exponentiation.threshold 1200

/-!
Verification of the YouTube-analysis Telegram bot (`src/bot.py`).

This file gives a shallow embedding, in Lean 4, of the pure logic of the
bot and proves the specified properties about it.  The embedding maps:

* Python strings to `String` / `List Char` (ASCII-faithful: the only
  character classes used by the program, `\d`, `\w`, `\s` and
  `str.lower`, are modelled on their ASCII fragment, which covers every
  character the program's patterns and messages involve);
* the three concrete regular expressions of the program
  (`extract_video_id`'s patterns, `format_duration`'s duration pattern,
  the `Bias:`/`Factuality:` field scans) to hand-rolled scanning
  functions with `re.search` / `re.match` semantics for those exact
  patterns;
* CPython's float division `count / 1000` together with `f"{x:.1f}"`
  formatting to exact integer arithmetic: nearest-double rounding
  (round-half-even at 53 bits of mantissa, `OverflowError` past
  `2^1024`) followed by round-half-even to one decimal digit;
* the fallible external services (YouTube catalog, Gemini) to function
  parameters returning `Except`, and the random choices
  (`random.choice`, `random.randint`) to explicit parameters;
* the Telegram message side effects (`reply_text`, `edit_text`) and the
  generative-AI invocation to an explicit event trace.
-/

/-! ### Character classes (ASCII fragments of Python's `\d`, `\w`, `\s`, id chars) -/

/-- The character class `[0-9A-Za-z_-]` of `extract_video_id`'s patterns. -/
def isIdChar (c : Char) : Bool :=
  c.isAlphanum || c = '_' || c = '-'

/-- Python's `\d` (ASCII fragment): decimal digits. -/
def isDigitChar (c : Char) : Bool :=
  c.isDigit

/-- Python's `\w` (ASCII fragment): letters, digits, underscore. -/
def isWordChar (c : Char) : Bool :=
  c.isAlphanum || c = '_'

/-- Python's `\s` / `str.strip` whitespace (ASCII fragment). -/
def isSpaceChar (c : Char) : Bool :=
  c = ' ' || c = '\t' || c = '\n' || c = '\r' || c = '\x0b' || c = '\x0c'

/-! ### Substring containment (Python's `in` operator on strings) -/

/-- The test `containsSub needle hay` models Python's `needle in hay`
(substring containment), by scanning every start position. -/
def containsSub (needle hay : List Char) : Bool :=
  if needle.isPrefixOf hay then true
  else
    match hay with
    | [] => false
    | _ :: t => containsSub needle t

/-- Declarative form of substring containment. -/
def ContainsSubSpec (needle hay : List Char) : Prop :=
  ∃ l r, hay = l ++ needle ++ r

/-- String-level substring containment, Python's `needle in hay`. -/
def containsSubStr (needle hay : String) : Bool :=
  containsSub needle.data hay.data

/-! ### Response classifier (`get_detective_reaction`, bot.py lines 78-112) -/

/-- Python's `str.lower` on a list of characters (ASCII fragment). -/
def lowerChars (cs : List Char) : List Char :=
  cs.map Char.toLower

/-- Python's `str.lower` on strings (ASCII fragment). -/
def pyLower (s : String) : String :=
  String.mk (lowerChars s.data)

/-- The three reaction categories of `get_detective_reaction`, named by the
dictionary keys of `reactions` in the source.  (The design document calls
them `lowBiasHighFactual`, `moderateMixed` and `highBiasOrQuestionable`
respectively.) -/
inductive ReactionCategory where
  | low_factual
  | moderate_mixed
  | high_questionable
deriving DecidableEq, Repr

/-- The fixed reaction lines of each category (the `reactions` dictionary,
bot.py lines 83-99). -/
def reactionsFor : ReactionCategory → List String
  | .low_factual =>
      ["😽 *Jaime\x27s Take:* This one smells fresh! Content appears credible and well-researched.",
       "😽😽 *Jaime\x27s Take:* My whiskers approve! Solid information with minimal bias detected.",
       "😽😽😽 *Jaime\x27s Take:* Investigation complete - this checks out as trustworthy content."]
  | .moderate_mixed =>
      ["🙀 *Jaime\x27s Take:* Something fishy here... Mixed signals detected. Cross-reference recommended.",
       "🙀🙀 *Jaime\x27s Take:* Partial truth alert! Contains both facts and opinions - view critically.",
       "🙀🙀🙀 *Jaime\x27s Take:* My detective senses tingling. Not entirely objective - proceed with awareness."]
  | .high_questionable =>
      ["😾😾😾 *Jaime\x27s Take:* RED FLAG! High bias detected. This content may be misleading or agenda-driven.",
       "😾 *Jaime\x27s Take:* Strong commercial/ideological bias present. Verify claims independently.",
       "😾😾 *Jaime\x27s Take:* Suspicious content detected. Treat claims with significant skepticism."]

/-- The category-selection logic of `get_detective_reaction`
(bot.py lines 101-110): lower both inputs, then run three substring rules
in order, first match winning. -/
def reaction_category (bias_level factuality : String) : ReactionCategory :=
  let bias_lower := lowerChars bias_level.data
  let fact_lower := lowerChars factuality.data
  if containsSub "low".data bias_lower && containsSub "factual".data fact_lower then
    .low_factual
  else if containsSub "high".data bias_lower || containsSub "questionable".data fact_lower then
    .high_questionable
  else
    .moderate_mixed

/-- The function `get_detective_reaction` (bot.py lines 78-112): `choose` stands for
`random.choice`. -/
def get_detective_reaction (choose : List String → String)
    (bias_level factuality : String) : String :=
  choose (reactionsFor (reaction_category bias_level factuality))

/-! ### `format_duration` (bot.py lines 45-62)

`re.match(r'PT(?:(\d+)H)?(?:(\d+)M)?(?:(\d+)S)?', duration)` is anchored at
the start of the string; it fails exactly when the string does not start
with `PT`.  After `PT`, each optional group consumes a maximal digit run
immediately followed by its unit letter, or nothing.  (No backtracking can
change this: a unit letter is not a digit, so the greedy digit run is the
only candidate, and all three groups are optional so the overall match
never fails once `PT` matched.) -/

/-- One optional group `(?:(\d+)U)?` of the duration pattern: returns the
captured digit run (if the group matched) and the remaining input. -/
def durationGroup (unit : Char) (cs : List Char) : Option (List Char) × List Char :=
  match cs.takeWhile isDigitChar, cs.dropWhile isDigitChar with
  | [], _ => (none, cs)
  | run@(_ :: _), r :: rest' => if r = unit then (some run, rest') else (none, cs)
  | _ :: _, [] => (none, cs)

/-- The function `format_duration` (bot.py lines 45-62).  The anchored `re.match`
succeeds exactly when the string starts with `PT`. -/
def format_duration (duration : String) : String :=
  if duration.data.take 2 = ['P', 'T'] then
    let cs := duration.data.drop 2
    let (hours, cs₁) := durationGroup 'H' cs
    let (minutes, cs₂) := durationGroup 'M' cs₁
    let (seconds, _) := durationGroup 'S' cs₂
    let parts := List.filterMap id
      [hours.map (fun d => String.mk d ++ "h"),
       minutes.map (fun d => String.mk d ++ "m"),
       seconds.map (fun d => String.mk d ++ "s")]
    if parts.isEmpty then "0s" else String.intercalate " " parts
  else "Unknown"

/-! ### `extract_video_id` (bot.py lines 28-42)

The three patterns, searched with `re.search` (earliest start position
wins; at one position the alternatives `v=` then `/` are tried in order):

* `(?:v=|/)([0-9A-Za-z_-]{11}).*`
* `(?:embed/)([0-9A-Za-z_-]{11})`
* `youtu\.be/([0-9A-Za-z_-]{11})`

The trailing `.*` of the first pattern always matches and captures
nothing, so it is dropped. -/

/-- Take exactly 11 identifier characters from the front, if present:
the `([0-9A-Za-z_-]{11})` capture group. -/
def take11Id (cs : List Char) : Option (List Char) :=
  if (cs.take 11).length = 11 ∧ (cs.take 11).all isIdChar then some (cs.take 11) else none

/-- The `re.search` of the first pattern `(?:v=|/)([0-9A-Za-z_-]{11}).*`. -/
def scanPatV (cs : List Char) : Option (List Char) :=
  match cs with
  | [] => none
  | c :: tl =>
    if c = 'v' ∧ tl.head? = some '=' then
      match take11Id tl.tail with
      | some id => some id
      | none => scanPatV tl
    else if c = '/' then
      match take11Id tl with
      | some id => some id
      | none => scanPatV tl
    else scanPatV tl

/-- The `re.search` of a pattern `lit([0-9A-Za-z_-]{11})` for a literal
string `lit` (used for the `embed/` and `youtu.be/` patterns). -/
def scanPatLit (lit : List Char) (cs : List Char) : Option (List Char) :=
  match cs with
  | [] => none
  | _ :: tl =>
    if lit.isPrefixOf cs then
      match take11Id (cs.drop lit.length) with
      | some id => some id
      | none => scanPatLit lit tl
    else scanPatLit lit tl

/-- The function `extract_video_id` (bot.py lines 28-42): try the three patterns in
order, return the first capture, else `none`. -/
def extract_video_id (url : String) : Option String :=
  match scanPatV url.data with
  | some id => some (String.mk id)
  | none =>
    match scanPatLit "embed/".data url.data with
    | some id => some (String.mk id)
    | none =>
      match scanPatLit "youtu.be/".data url.data with
      | some id => some (String.mk id)
      | none => none

/-- The first pattern family: a `v=` or a `/` immediately followed by 11
identifier characters, somewhere in the string. -/
def ShapeV (cs : List Char) : Prop :=
  ∃ l id r, (cs = l ++ 'v' :: '=' :: (id ++ r) ∨ cs = l ++ '/' :: (id ++ r)) ∧
    id.length = 11 ∧ id.all isIdChar = true

/-- The second/third pattern families: a literal (e.g. `embed/` or
`youtu.be/`) immediately followed by 11 identifier characters. -/
def ShapeLit (lit cs : List Char) : Prop :=
  ∃ l id r, cs = l ++ lit ++ id ++ r ∧ id.length = 11 ∧ id.all isIdChar = true

/-! ### `format_views` (bot.py lines 65-75)

`f"{count / 1_000_000:.1f}M"` goes through CPython float division and
`%.1f` formatting.  Both steps are exactly modelled with integer
arithmetic:

* `count / d` (true division of non-negative ints, `count ≥ d > 0`, the
  only case the function reaches) produces the IEEE-754 double nearest to
  the exact quotient, rounding half to even on the 53-bit mantissa, and
  raises `OverflowError` when the rounded value reaches `2^1024`;
* `%.1f` renders the exact value of that double rounded half-to-even to
  one decimal digit.

This model was differentially validated against CPython on several
hundred thousand inputs, including the overflow boundary. -/

/-- Round-half-even of the rational `num / den` to an integer. -/
def rheNat (num den : Nat) : Nat :=
  if 2 * (num % den) < den then num / den
  else if den < 2 * (num % den) then num / den + 1
  else if num / den % 2 = 0 then num / den else num / den + 1

/-- Floor of the base-2 logarithm, by structural recursion on a fuel
argument (correct whenever `n < 2 ^ fuel`). -/
def log2Fuel : Nat → Nat → Nat
  | 0, _ => 0
  | fuel + 1, n => if n < 2 then 0 else log2Fuel fuel (n / 2) + 1

/-- The 53-bit mantissa of `a / b` at binade exponent `n`: the quotient
scaled to `[2 ^ 52, 2 ^ 53]` and rounded half to even. -/
def floatMantissa (a b n : Nat) : Nat :=
  if n ≤ 52 then rheNat (a * 2 ^ (52 - n)) b else rheNat a (b * 2 ^ (n - 52))

/-- Nearest-double rounding of `a / b` for `1 ≤ b ≤ a`: returns mantissa
`m` and exponent `n` with value `m * 2 ^ (n - 52)`, or `none` on overflow
(CPython `OverflowError`).  When rounding carries the mantissa up to
`2 ^ 53`, the value moves to the next binade.  A quotient of at least
`2 ^ 1060` always overflows and is cut off up front, which keeps the
logarithm argument inside the fuel budget. -/
def floatDivParts (a b : Nat) : Option (Nat × Nat) :=
  if b * 2 ^ 1060 ≤ a then none
  else
    if floatMantissa a b (log2Fuel 1100 (a / b)) = 2 ^ 53 then
      if log2Fuel 1100 (a / b) + 1 < 1024 then
        some (2 ^ 52, log2Fuel 1100 (a / b) + 1)
      else none
    else
      if log2Fuel 1100 (a / b) < 1024 then
        some (floatMantissa a b (log2Fuel 1100 (a / b)), log2Fuel 1100 (a / b))
      else none

/-- The `%.1f` formatting of the double with mantissa `m` and exponent `n`:
round its exact value, times ten, half-to-even to an integer `t`, and
print `t` with a decimal point before the last digit. -/
def fmtOneDec (m n : Nat) : String :=
  let t := if n ≤ 52 then rheNat (10 * m) (2 ^ (52 - n)) else 10 * m * 2 ^ (n - 52)
  Nat.repr (t / 10) ++ "." ++ Nat.repr (t % 10)

/-- The function `format_views` (bot.py lines 65-75).  A huge count makes the float
division overflow, so the result is `Except` (the Python function raises
`OverflowError` there instead of returning). -/
def format_views (count : Nat) : Except String String :=
  if 1000000 ≤ count then
    match floatDivParts count 1000000 with
    | some (m, n) => .ok (fmtOneDec m n ++ "M")
    | none => .error "OverflowError: integer division result too large for a float"
  else if 1000 ≤ count then
    match floatDivParts count 1000 with
    | some (m, n) => .ok (fmtOneDec m n ++ "K")
    | none => .error "OverflowError: integer division result too large for a float"
  else .ok (Nat.repr count)

/-! ### Field extraction from the AI response (bot.py lines 206-210)

`re.search(r'Bias:\s*(\w+)', analysis)`: the earliest position where the
literal label matches, followed by optional whitespace and at least one
word character, wins; the captured value is the maximal word-character
run.  (`\s` and `\w` are disjoint, so greedy matching is exact.) -/

/-- The `re.search` of `label ++ r'\s*(\w+)'` for a literal `label`:
returns the first captured word, if any. -/
def searchLabel (label : List Char) (hay : List Char) : Option (List Char) :=
  match hay with
  | [] => none
  | _ :: tl =>
    if label.isPrefixOf hay then
      let w := ((hay.drop label.length).dropWhile isSpaceChar).takeWhile isWordChar
      if w.isEmpty then searchLabel label tl else some w
    else searchLabel label tl

/-- The bias level extracted in `summarize_youtube` (bot.py lines 206,
209): first `Bias:` capture, defaulting to `"Unknown"`. -/
def bias_level_of (analysis : String) : String :=
  ((searchLabel "Bias:".data analysis.data).map String.mk).getD "Unknown"

/-- The factuality extracted in `summarize_youtube` (bot.py lines 207,
210): first `Factuality:` capture, defaulting to `"Unknown"`. -/
def factuality_of (analysis : String) : String :=
  ((searchLabel "Factuality:".data analysis.data).map String.mk).getD "Unknown"

/-! ### The request pipeline (`summarize_youtube`, bot.py lines 115-231)

External effects are made explicit:

* the YouTube lookup is a parameter `fetch : String → Except String
  CatalogResponse` (exception text on the error side);
* the Gemini call is a parameter `gen : String → Except String String`;
* `random.choice` is a parameter `choose : List String → String`, and
  `random.randint(1000, 9999)` a parameter `reportNum : Nat`;
* every Telegram message (`reply_text` / `edit_text`) and every
  generative-AI invocation is recorded as a `PipeEvent`, in order. -/

/-- Optional nested fields of one catalog item, mirroring the dictionary
accesses of bot.py lines 153-162 (`None` models an absent key). -/
structure SnippetData where
  title : Option String
  description : Option String
  channelTitle : Option String

structure StatsData where
  viewCount : Option Nat

structure ContentDetailsData where
  duration : Option String

structure VideoItem where
  snippet : Option SnippetData
  statistics : Option StatsData
  contentDetails : Option ContentDetailsData

/-- The catalog response: the `items` list. -/
structure CatalogResponse where
  items : List VideoItem

/-- One observable step of the pipeline: a `reply_text`, an `edit_text`,
or a call of the generative-text service. -/
inductive PipeEvent where
  | sent (message : String)
  | edited (message : String)
  | aiCall (prompt : String)
deriving DecidableEq, Repr

/-- The four loading messages (bot.py lines 126-131). -/
def loading_messages : List String :=
  ["🔍 Investigating the evidence...",
   "🕵️ Detective Jaime on the case...",
   "👃 Analyzing content patterns...",
   "📋 Gathering intelligence..."]

/-- Python's `str.strip()` (ASCII whitespace fragment). -/
def pyStrip (s : String) : String :=
  String.mk (((s.data.dropWhile isSpaceChar).reverse.dropWhile isSpaceChar).reverse)

/-- The Gemini prompt (bot.py lines 172-198), verbatim. -/
def build_prompt (title channel description : String) : String :=
  "\nAnalyze this YouTube video and provide a professional assessment:\n\nTitle: "
    ++ title
    ++ "\nChannel: "
    ++ channel
    ++ "\nDescription: "
    ++ description
    ++ "\n\n**FORMAT YOUR RESPONSE EXACTLY LIKE THIS:**\n\nKey Points:\n- [First main point - be specific and clear]\n- [Second main point]\n- [Third main point]\n- [Fourth main point]\n- [Fifth main point]\n\nQuick Analysis:\nBias: [Low/Moderate/High]\n[Brief professional explanation]\n\nFactuality: [Factual/Opinion/Mixed]\n[Brief professional assessment]\n\nType: [News/Educational/Entertainment/Commentary]\n\nKeep it concise and professional. Each bullet should be 1-2 sentences max.\n"

/-- The final report (bot.py lines 216-225), assembled in fixed order. -/
def compose_report (reportNum : Nat) (title channel duration views video_id analysis reaction : String) : String :=
  "🕵️ *INVESTIGATION REPORT #" ++ Nat.repr reportNum ++ "*\n"
    ++ "━━━━━━━━━━━━━━━━━━\n\n"
    ++ "*Title:* " ++ title ++ "\n"
    ++ "*Channel:* " ++ channel ++ "\n"
    ++ "*Duration:* " ++ duration ++ "\n"
    ++ "*Views:* " ++ views ++ "\n"
    ++ "*Link:* https://youtube.com/watch?v=" ++ video_id ++ "\n\n"
    ++ analysis ++ "\n\n"
    ++ "━━━━━━━━━━━━━━━━━━\n"
    ++ reaction

/-- The pipeline `summarize_youtube` (bot.py lines 115-231) as an event trace.  The
`try`/`except` around the catalog call covers the field extraction too,
so a missing required key (`snippet`, `title`) surfaces as a Fetch Error
carrying Python's `str(KeyError(...))`, and an `OverflowError` from
`format_views` surfaces the same way. -/
def summarize_youtube (fetch : String → Except String CatalogResponse)
    (gen : String → Except String String)
    (choose : List String → String) (reportNum : Nat)
    (url : String) : List PipeEvent :=
  let loading := PipeEvent.sent (choose loading_messages)
  match extract_video_id url with
  | none => [loading, .edited "❌ *Invalid Evidence:* That\x27s not a valid YouTube link. Please provide a proper URL."]
  | some video_id =>
    match fetch video_id with
    | .error e => [loading, .edited ("❌ *Fetch Error:* Unable to retrieve video data: " ++ e)]
    | .ok info =>
      match info.items with
      | [] => [loading, .edited "❌ *Video Not Found:* This video is unavailable or has been removed."]
      | video_data :: _ =>
        match video_data.snippet with
        | none => [loading, .edited "❌ *Fetch Error:* Unable to retrieve video data: \x27snippet\x27"]
        | some snippet =>
          match snippet.title with
          | none => [loading, .edited "❌ *Fetch Error:* Unable to retrieve video data: \x27title\x27"]
          | some title =>
            let description := snippet.description.getD "No description available"
            let channel := snippet.channelTitle.getD "Unknown"
            let duration := format_duration (((video_data.contentDetails.map ContentDetailsData.duration).getD none).getD "PT0S")
            match format_views (((video_data.statistics.map StatsData.viewCount).getD none).getD 0) with
            | .error e => [loading, .edited ("❌ *Fetch Error:* Unable to retrieve video data: " ++ e)]
            | .ok views =>
              let prompt := build_prompt title channel description
              [loading, .edited "🤖 Running analysis algorithms...", .aiCall prompt] ++
              match gen prompt with
              | .error e => [.edited ("❌ *Analysis Error:* " ++ e)]
              | .ok raw =>
                let analysis := pyStrip raw
                let reaction := get_detective_reaction choose (bias_level_of analysis) (factuality_of analysis)
                [.edited (compose_report reportNum title channel duration views video_id analysis reaction)]

/-- The three "not a link" replies (bot.py lines 326-330). -/
def not_link_reactions : List String :=
  ["🤔 That\x27s not a YouTube link. Please send a valid YouTube URL for analysis.",
   "❓ I need a YouTube link to investigate. Try: youtube.com/watch?v=...",
   "🐟 Send me a YouTube link and I\x27ll analyze it for you!"]

/-- The handler `handle_message` (bot.py lines 315-331): enter the pipeline exactly
when the text is non-empty and contains `youtube.com` or `youtu.be`,
else send one random "not a link" reply. -/
def handle_message (fetch : String → Except String CatalogResponse)
    (gen : String → Except String String)
    (choose : List String → String) (reportNum : Nat)
    (text : String) : List PipeEvent :=
  if ¬ text.data.isEmpty ∧ (containsSubStr "youtube.com" text || containsSubStr "youtu.be" text) then
    summarize_youtube fetch gen choose reportNum text
  else
    [.sent (choose not_link_reactions)]

/-! ### Canonical duration tokens (hours/minutes/seconds combinations) -/

/-- Builds the canonical ISO-8601-style token with the given optional
digit-run components, e.g. `durToken (some "1") none (some "45") =
"PT1H45S"`. -/
def durToken (oh om os : Option (List Char)) : String :=
  String.mk ('P' :: 'T' ::
    ((oh.map (· ++ ['H'])).getD [] ++ (om.map (· ++ ['M'])).getD [] ++
      (os.map (· ++ ['S'])).getD []))

/-- The rendering the design document prescribes: hours, minutes, seconds
in that order, space-separated, each with its unit letter, missing
components omitted, `"0s"` when nothing is present. -/
def durRender (oh om os : Option (List Char)) : String :=
  let parts := List.filterMap id
    [oh.map (fun d => String.mk d ++ "h"),
     om.map (fun d => String.mk d ++ "m"),
     os.map (fun d => String.mk d ++ "s")]
  if parts.isEmpty then "0s" else String.intercalate " " parts

/-- A catalog stub returning zero items for every identifier. -/
def fetchNone : String → Except String CatalogResponse := fun _ => Except.ok ⟨[]⟩

/-- A generative-text stub. -/
def genConst : String → Except String String := fun _ => Except.ok "ok"

/-- A deterministic stand-in for `random.choice`. -/
def chooseHead : List String → String := fun l => l.headD ""

/-- The catalog item of the end-to-end report scenario: title `Sample`,
channel `Chan`, duration `PT3M33S`, view count 1000000, description
absent. -/
def itemC7 : VideoItem :=
  ⟨some ⟨some "Sample", none, some "Chan"⟩, some ⟨some 1000000⟩, some ⟨some "PT3M33S"⟩⟩

def fetchC7 : String → Except String CatalogResponse := fun _ => Except.ok ⟨[itemC7]⟩

def urlC7 : String := "https://youtube.com/watch?v=dQw4w9WgXcQ"

def genC7 : String → Except String String := fun _ => Except.ok "Bias: Low\nFactuality: Factual"

theorem isPrefixOf_iff_exists {α : Type} [DecidableEq α] (l₁ l₂ : List α) :
    l₁.isPrefixOf l₂ = true ↔ ∃ r, l₂ = l₁ ++ r := by
  rw [List.isPrefixOf_iff_prefix]
  constructor
  · rintro ⟨r, hr⟩; exact ⟨r, hr.symm⟩
  · rintro ⟨r, hr⟩; exact ⟨r, hr.symm⟩

theorem containsSub_iff (needle hay : List Char) :
    containsSub needle hay = true ↔ ContainsSubSpec needle hay := by
  induction hay with
  | nil =>
    rw [containsSub]
    constructor
    · intro h
      simp only [List.isPrefixOf_iff_prefix] at h
      split at h
      · rename_i hpre
        rcases (isPrefixOf_iff_exists needle []).mp (by
          rw [List.isPrefixOf_iff_prefix]; exact hpre) with ⟨r, hr⟩
        exact ⟨[], r, by simpa using hr⟩
      · cases h
    · rintro ⟨l, r, h⟩
      have : needle = [] :=
        (List.append_eq_nil.mp (List.append_eq_nil.mp h.symm).1).2
      subst this
      simp [List.isPrefixOf]
  | cons c t ih =>
    rw [containsSub]
    split
    · rename_i hpre
      rcases (isPrefixOf_iff_exists needle (c :: t)).mp hpre with ⟨r, hr⟩
      simp only [true_iff]
      exact ⟨[], r, by simpa using hr⟩
    · rename_i hpre
      rw [ih]
      constructor
      · rintro ⟨l, r, h⟩
        exact ⟨c :: l, r, by simp [h]⟩
      · rintro ⟨l, r, h⟩
        cases l with
        | nil =>
          exfalso
          apply hpre
          rw [isPrefixOf_iff_exists]
          exact ⟨r, by simpa using h⟩
        | cons x l =>
          refine ⟨l, r, ?_⟩
          have := h
          simp only [List.cons_append] at this
          exact (List.cons.injEq _ _ _ _ ▸ this).2

example : format_duration "PT1H23M45S" = "1h 23m 45s" := by decide
example : format_duration "PT0S" = "0s" := by decide
example : format_duration "" = "Unknown" := by decide
example : format_duration "PT0H0M0S" = "0h 0m 0s" := by decide
example : format_duration "PTabc" = "0s" := by decide
example : format_duration "PT45S" = "45s" := by decide
example : format_duration "PT3M33S" = "3m 33s" := by decide
example : reaction_category "Low" "Factual" = .low_factual := by decide
example : reaction_category "High" "Factual" = .high_questionable := by decide
example : reaction_category "Unknown" "Unknown" = .moderate_mixed := by decide

example : extract_video_id "https://youtube.com/watch?v=dQw4w9WgXcQ" = some "dQw4w9WgXcQ" := by decide
example : extract_video_id "https://www.youtube.com/embed/dQw4w9WgXcQ" = some "dQw4w9WgXcQ" := by decide
example : extract_video_id "youtu.be/dQw4w9WgXcQ" = some "dQw4w9WgXcQ" := by decide
example : extract_video_id "https://example.com/ABCDEFGHIJK" = some "ABCDEFGHIJK" := by decide
example : extract_video_id "no link here" = none := by decide
example : extract_video_id "" = none := by decide

theorem take11Id_some_iff (cs id : List Char) :
    take11Id cs = some id ↔
      id.length = 11 ∧ id.all isIdChar = true ∧ ∃ r, cs = id ++ r := by
  have htake : ∀ r : List Char, id.length = 11 → (id ++ r).take 11 = id := by
    intro r hlen
    calc (id ++ r).take 11 = (id ++ r).take id.length := by rw [hlen]
      _ = id := List.take_left id r
  unfold take11Id
  split
  · rename_i h
    constructor
    · intro hs
      injection hs with hs
      subst hs
      exact ⟨h.1, h.2, cs.drop 11, (cs.take_append_drop 11).symm⟩
    · rintro ⟨hlen, hall, r, hr⟩
      subst hr
      rw [htake r hlen]
  · rename_i h
    constructor
    · intro hs; cases hs
    · rintro ⟨hlen, hall, r, hr⟩
      subst hr
      exact absurd (by rw [htake r hlen]; exact ⟨hlen, hall⟩) h

theorem scanPatV_some (cs id : List Char) (h : scanPatV cs = some id) :
    id.length = 11 ∧ id.all isIdChar = true ∧
      ∃ l r, cs = l ++ 'v' :: '=' :: (id ++ r) ∨ cs = l ++ '/' :: (id ++ r) := by
  induction cs with
  | nil => simp [scanPatV] at h
  | cons c tl ih =>
    rw [scanPatV] at h
    split at h
    · rename_i hc
      obtain ⟨hcv, hhd⟩ := hc
      subst hcv
      cases tl with
      | nil => simp at hhd
      | cons x tl' =>
        simp only [List.head?] at hhd
        have hx : x = '=' := by injection hhd
        subst hx
        simp only [List.tail] at h
        split at h
        · rename_i id' hid'
          have hre : id' = id := by injection h
          obtain ⟨h1, h2, r, hr⟩ := (take11Id_some_iff tl' id').mp hid'
          rw [hre] at h1 h2 hr
          exact ⟨h1, h2, [], r, Or.inl (by rw [hr]; rfl)⟩
        · obtain ⟨h1, h2, l, r, h3⟩ := ih h
          refine ⟨h1, h2, 'v' :: l, r, ?_⟩
          rcases h3 with h3 | h3
          · exact Or.inl (by rw [List.cons_append, ← h3])
          · exact Or.inr (by rw [List.cons_append, ← h3])
    · split at h
      · rename_i hne hc
        subst hc
        split at h
        · rename_i id' hid'
          have hre : id' = id := by injection h
          obtain ⟨h1, h2, r, hr⟩ := (take11Id_some_iff tl id').mp hid'
          rw [hre] at h1 h2 hr
          exact ⟨h1, h2, [], r, Or.inr (by rw [hr]; rfl)⟩
        · obtain ⟨h1, h2, l, r, h3⟩ := ih h
          refine ⟨h1, h2, '/' :: l, r, ?_⟩
          rcases h3 with h3 | h3
          · exact Or.inl (by rw [List.cons_append, ← h3])
          · exact Or.inr (by rw [List.cons_append, ← h3])
      · obtain ⟨h1, h2, l, r, h3⟩ := ih h
        refine ⟨h1, h2, c :: l, r, ?_⟩
        rcases h3 with h3 | h3
        · exact Or.inl (by rw [List.cons_append, ← h3])
        · exact Or.inr (by rw [List.cons_append, ← h3])

theorem scanPatV_isSome (cs : List Char) (h : ShapeV cs) :
    ∃ id, scanPatV cs = some id := by
  induction cs with
  | nil =>
    exfalso
    rcases h with ⟨l, id, r, hdisj, hlen, _⟩
    rcases hdisj with h3 | h3 <;>
      · have := congrArg List.length h3
        simp [hlen] at this
        omega
  | cons c tl ih =>
    rcases h with ⟨l, id, r, hdisj, hlen, hall⟩
    have hid : take11Id (id ++ r) = some id :=
      (take11Id_some_iff (id ++ r) id).mpr ⟨hlen, hall, r, rfl⟩
    cases l with
    | nil =>
      rcases hdisj with h3 | h3
      · simp only [List.nil_append] at h3
        injection h3 with hc htl
        subst hc
        subst htl
        exact ⟨id, by rw [scanPatV]; simp [hid]⟩
      · simp only [List.nil_append] at h3
        injection h3 with hc htl
        subst hc
        subst htl
        exact ⟨id, by rw [scanPatV]; simp [hid]⟩
    | cons x l' =>
      have hx : c = x ∧ (tl = l' ++ 'v' :: '=' :: (id ++ r) ∨ tl = l' ++ '/' :: (id ++ r)) := by
        rcases hdisj with h3 | h3 <;>
          · simp only [List.cons_append] at h3
            injection h3 with hc htl
            subst hc
            exact ⟨rfl, by rw [htl]; simp⟩
      have htlShape : ShapeV tl := ⟨l', id, r, hx.2, hlen, hall⟩
      obtain ⟨id₀, hid₀⟩ := ih htlShape
      rw [scanPatV]
      split
      · split
        · rename_i id₁ _
          exact ⟨id₁, rfl⟩
        · exact ⟨id₀, hid₀⟩
      · split
        · split
          · rename_i id₁ _
            exact ⟨id₁, rfl⟩
          · exact ⟨id₀, hid₀⟩
        · exact ⟨id₀, hid₀⟩

theorem scanPatLit_some (lit cs id : List Char) (h : scanPatLit lit cs = some id) :
    id.length = 11 ∧ id.all isIdChar = true ∧ ∃ l r, cs = l ++ lit ++ id ++ r := by
  induction cs with
  | nil => simp [scanPatLit] at h
  | cons c tl ih =>
    rw [scanPatLit] at h
    split at h
    · rename_i hpre
      obtain ⟨rest, hrest⟩ := (isPrefixOf_iff_exists lit (c :: tl)).mp hpre
      split at h
      · rename_i id' hid'
        have hre : id' = id := by injection h
        have hdrop : (c :: tl).drop lit.length = rest := by
          rw [hrest, List.drop_left]
        rw [hdrop, hre] at hid'
        obtain ⟨h1, h2, r, hr⟩ := (take11Id_some_iff rest id).mp hid'
        exact ⟨h1, h2, [], r, by rw [hrest, hr]; simp⟩
      · obtain ⟨h1, h2, l, r, h3⟩ := ih h
        exact ⟨h1, h2, c :: l, r, by simp [h3]⟩
    · obtain ⟨h1, h2, l, r, h3⟩ := ih h
      exact ⟨h1, h2, c :: l, r, by simp [h3]⟩

theorem scanPatLit_isSome (lit cs : List Char) (h : ShapeLit lit cs) :
    ∃ id, scanPatLit lit cs = some id := by
  induction cs with
  | nil =>
    exfalso
    rcases h with ⟨l, id, r, h3, hlen, _⟩
    have := congrArg List.length h3
    simp [hlen] at this
    omega
  | cons c tl ih =>
    rcases h with ⟨l, id, r, h3, hlen, hall⟩
    cases l with
    | nil =>
      simp only [List.nil_append] at h3
      rw [scanPatLit]
      have hpre : lit.isPrefixOf (c :: tl) = true := by
        rw [isPrefixOf_iff_exists]
        exact ⟨id ++ r, by rw [h3]; simp⟩
      rw [hpre]
      simp only [if_true]
      have hdrop : (c :: tl).drop lit.length = id ++ r := by
        rw [h3, List.append_assoc, List.drop_left]
      rw [hdrop]
      have hid : take11Id (id ++ r) = some id :=
        (take11Id_some_iff (id ++ r) id).mpr ⟨hlen, hall, r, rfl⟩
      rw [hid]
      exact ⟨id, rfl⟩
    | cons x l' =>
      have hx : c = x ∧ tl = l' ++ lit ++ id ++ r := by
        simp only [List.cons_append] at h3
        injection h3 with hc htl
        exact ⟨hc, htl⟩
      have htlShape : ShapeLit lit tl := ⟨l', id, r, hx.2, hlen, hall⟩
      obtain ⟨id₀, hid₀⟩ := ih htlShape
      rw [scanPatLit]
      split
      · split
        · rename_i id₁ _
          exact ⟨id₁, rfl⟩
        · exact ⟨id₀, hid₀⟩
      · exact ⟨id₀, hid₀⟩

theorem ShapeLit_slash_to_ShapeV (pre cs : List Char)
    (h : ShapeLit (pre ++ ['/']) cs) : ShapeV cs := by
  rcases h with ⟨l, id, r, h3, hlen, hall⟩
  refine ⟨l ++ pre, id, r, Or.inr ?_, hlen, hall⟩
  rw [h3]
  simp

theorem scanPatV_none_iff (cs : List Char) :
    scanPatV cs = none ↔ ¬ ShapeV cs := by
  constructor
  · intro h hshape
    obtain ⟨id, hid⟩ := scanPatV_isSome cs hshape
    rw [h] at hid
    cases hid
  · intro h
    cases hv : scanPatV cs with
    | none => rfl
    | some id =>
      exfalso
      obtain ⟨h1, h2, l, r, h3⟩ := scanPatV_some cs id hv
      exact h ⟨l, id, r, h3, h1, h2⟩

theorem scanPatLit_none_iff (lit cs : List Char) :
    scanPatLit lit cs = none ↔ ¬ ShapeLit lit cs := by
  constructor
  · intro h hshape
    obtain ⟨id, hid⟩ := scanPatLit_isSome lit cs hshape
    rw [h] at hid
    cases hid
  · intro h
    cases hv : scanPatLit lit cs with
    | none => rfl
    | some id =>
      exfalso
      obtain ⟨h1, h2, l, r, h3⟩ := scanPatLit_some lit cs id hv
      exact h ⟨l, id, r, h3, h1, h2⟩

theorem embed_eq : "embed/".data = ['e', 'm', 'b', 'e', 'd'] ++ ['/'] := by decide

theorem youtube_short_eq : "youtu.be/".data =
    ['y', 'o', 'u', 't', 'u', '.', 'b', 'e'] ++ ['/'] := by decide

example : format_views 1500000 = .ok "1.5M" := by rfl
example : format_views 5000 = .ok "5.0K" := by rfl
example : format_views 500 = .ok "500" := by rfl
example : format_views 1000 = .ok "1.0K" := by rfl
example : format_views 1000000 = .ok "1.0M" := by rfl
example : format_views 0 = .ok "0" := by rfl
example : format_views 999999 = .ok "1000.0K" := by rfl
example : format_views 1050 = .ok "1.1K" := by rfl
example : format_views 1250 = .ok "1.2K" := by rfl

example : bias_level_of "Quick Analysis:\nBias: Low\nblah" = "Low" := by decide
example : bias_level_of "no fields at all" = "Unknown" := by decide
example : factuality_of "Factuality:   Mixed stuff" = "Mixed" := by decide
example : factuality_of "Factuality: !" = "Unknown" := by decide

theorem digitRun_split (run : List Char) (hall : run.all isDigitChar = true)
    (u : Char) (hu : isDigitChar u = false) (rest : List Char) :
    (run ++ u :: rest).takeWhile isDigitChar = run ∧
      (run ++ u :: rest).dropWhile isDigitChar = u :: rest := by
  induction run with
  | nil => simp [List.takeWhile_cons, List.dropWhile_cons, hu]
  | cons d ds ih =>
    simp only [List.all_cons, Bool.and_eq_true] at hall
    have := ih hall.2
    simp [List.takeWhile_cons, List.dropWhile_cons, hall.1, this.1, this.2]

theorem durationGroup_match (u : Char) (hu : isDigitChar u = false)
    (run rest : List Char) (hne : run ≠ []) (hall : run.all isDigitChar = true) :
    durationGroup u (run ++ u :: rest) = (some run, rest) := by
  obtain ⟨ht, hd⟩ := digitRun_split run hall u hu rest
  unfold durationGroup
  rw [ht, hd]
  cases run with
  | nil => exact absurd rfl hne
  | cons x xs => simp

theorem durationGroup_miss (u uu : Char) (huu : isDigitChar uu = false)
    (hne : uu ≠ u) (run rest : List Char) (hall : run.all isDigitChar = true) :
    durationGroup u (run ++ uu :: rest) = (none, run ++ uu :: rest) := by
  obtain ⟨ht, hd⟩ := digitRun_split run hall uu huu rest
  unfold durationGroup
  rw [ht, hd]
  cases run with
  | nil => simp
  | cons x xs => simp [hne]

theorem durationGroup_allDigits (u : Char) (run : List Char)
    (hall : run.all isDigitChar = true) :
    durationGroup u run = (none, run) := by
  have ht : run.takeWhile isDigitChar = run := List.takeWhile_eq_self_iff.mpr (by
    intro x hx
    exact List.all_eq_true.mp hall x hx)
  have hd : run.dropWhile isDigitChar = [] := List.dropWhile_eq_nil_iff.mpr (by
    intro x hx
    exact List.all_eq_true.mp hall x hx)
  unfold durationGroup
  rw [ht, hd]
  cases run with
  | nil => simp
  | cons x xs => simp

theorem format_duration_durToken (oh om os : Option (List Char))
    (hh : ∀ d, oh = some d → d ≠ [] ∧ d.all isDigitChar = true)
    (hm : ∀ d, om = some d → d ≠ [] ∧ d.all isDigitChar = true)
    (hs : ∀ d, os = some d → d ≠ [] ∧ d.all isDigitChar = true) :
    format_duration (durToken oh om os) = durRender oh om os := by
  have huH : isDigitChar 'H' = false := by decide
  have huM : isDigitChar 'M' = false := by decide
  have huS : isDigitChar 'S' = false := by decide
  rcases oh with - | h
  · rcases om with - | m
    · rcases os with - | s
      · have e0 : ∀ u, durationGroup u [] = (none, []) := fun u => rfl
        simp [durToken, durRender, format_duration, e0]
      · obtain ⟨hne, hall⟩ := hs s rfl
        have e1 : durationGroup 'H' (s ++ ['S']) = (none, s ++ ['S']) :=
          durationGroup_miss 'H' 'S' huS (by decide) s [] hall
        have e2 : durationGroup 'M' (s ++ ['S']) = (none, s ++ ['S']) :=
          durationGroup_miss 'M' 'S' huS (by decide) s [] hall
        have e3 : durationGroup 'S' (s ++ ['S']) = (some s, []) :=
          durationGroup_match 'S' huS s [] hne hall
        simp [durToken, durRender, format_duration, e1, e2, e3]
    · obtain ⟨hnem, hallm⟩ := hm m rfl
      rcases os with - | s
      · have e1 : durationGroup 'H' (m ++ ['M']) = (none, m ++ ['M']) :=
          durationGroup_miss 'H' 'M' huM (by decide) m [] hallm
        have e2 : durationGroup 'M' (m ++ ['M']) = (some m, []) :=
          durationGroup_match 'M' huM m [] hnem hallm
        have e3 : durationGroup 'S' ([] : List Char) = (none, []) := rfl
        simp [durToken, durRender, format_duration, e1, e2, e3]
      · obtain ⟨hnes, halls⟩ := hs s rfl
        have e1 : durationGroup 'H' (m ++ 'M' :: (s ++ ['S'])) = (none, m ++ 'M' :: (s ++ ['S'])) :=
          durationGroup_miss 'H' 'M' huM (by decide) m (s ++ ['S']) hallm
        have e2 : durationGroup 'M' (m ++ 'M' :: (s ++ ['S'])) = (some m, s ++ ['S']) :=
          durationGroup_match 'M' huM m (s ++ ['S']) hnem hallm
        have e3 : durationGroup 'S' (s ++ ['S']) = (some s, []) :=
          durationGroup_match 'S' huS s [] hnes halls
        simp [durToken, durRender, format_duration, e1, e2, e3]
  · obtain ⟨hneh, hallh⟩ := hh h rfl
    rcases om with - | m
    · rcases os with - | s
      · have e1 : durationGroup 'H' (h ++ ['H']) = (some h, []) :=
          durationGroup_match 'H' huH h [] hneh hallh
        have e2 : durationGroup 'M' ([] : List Char) = (none, []) := rfl
        have e3 : durationGroup 'S' ([] : List Char) = (none, []) := rfl
        simp [durToken, durRender, format_duration, e1, e2, e3]
      · obtain ⟨hnes, halls⟩ := hs s rfl
        have e1 : durationGroup 'H' (h ++ 'H' :: (s ++ ['S'])) = (some h, s ++ ['S']) :=
          durationGroup_match 'H' huH h (s ++ ['S']) hneh hallh
        have e2 : durationGroup 'M' (s ++ ['S']) = (none, s ++ ['S']) :=
          durationGroup_miss 'M' 'S' huS (by decide) s [] halls
        have e3 : durationGroup 'S' (s ++ ['S']) = (some s, []) :=
          durationGroup_match 'S' huS s [] hnes halls
        simp [durToken, durRender, format_duration, e1, e2, e3]
    · obtain ⟨hnem, hallm⟩ := hm m rfl
      rcases os with - | s
      · have e1 : durationGroup 'H' (h ++ 'H' :: (m ++ ['M'])) = (some h, m ++ ['M']) :=
          durationGroup_match 'H' huH h (m ++ ['M']) hneh hallh
        have e2 : durationGroup 'M' (m ++ ['M']) = (some m, []) :=
          durationGroup_match 'M' huM m [] hnem hallm
        have e3 : durationGroup 'S' ([] : List Char) = (none, []) := rfl
        simp [durToken, durRender, format_duration, e1, e2, e3]
      · obtain ⟨hnes, halls⟩ := hs s rfl
        have e1 : durationGroup 'H' (h ++ 'H' :: (m ++ 'M' :: (s ++ ['S']))) =
            (some h, m ++ 'M' :: (s ++ ['S'])) :=
          durationGroup_match 'H' huH h (m ++ 'M' :: (s ++ ['S'])) hneh hallh
        have e2 : durationGroup 'M' (m ++ 'M' :: (s ++ ['S'])) = (some m, s ++ ['S']) :=
          durationGroup_match 'M' huM m (s ++ ['S']) hnem hallm
        have e3 : durationGroup 'S' (s ++ ['S']) = (some s, []) :=
          durationGroup_match 'S' huS s [] hnes halls
        simp [durToken, durRender, format_duration, e1, e2, e3]

theorem durationGroup_fst_none (u : Char) (cs : List Char)
    (h : (durationGroup u cs).1 = none) : durationGroup u cs = (none, cs) := by
  have hsnd : (durationGroup u cs).1 = none → (durationGroup u cs).2 = cs := by
    unfold durationGroup
    split
    · intro _; rfl
    · split
      · intro hc; simp at hc
      · intro _; rfl
    · intro _; rfl
  have heta : durationGroup u cs = ((durationGroup u cs).1, (durationGroup u cs).2) := rfl
  rw [heta, h, hsnd h]

theorem take_two_eq_iff (cs : List Char) :
    cs.take 2 = ['P', 'T'] ↔ ∃ t, cs = 'P' :: 'T' :: t := by
  match cs with
  | [] => simp
  | [c] => simp
  | c₁ :: c₂ :: t =>
    simp only [List.take_succ_cons, List.take_zero]
    constructor
    · intro h
      injection h with h1 h2
      injection h2 with h2
      subst h1; subst h2
      exact ⟨t, rfl⟩
    · rintro ⟨t', ht'⟩
      injection ht' with h1 h2
      injection h2 with h2 h3
      subst h1; subst h2
      rfl

/-- C1: for every pair of extracted bias and factuality strings the
classifier applies exactly three rules in fixed order, first match
winning: (1) bias contains "low" (case-insensitively) and factuality
contains "factual" gives `low_factual` (the spec's `lowBiasHighFactual`);
(2) otherwise bias containing "high" or factuality containing
"questionable" gives `high_questionable` (`highBiasOrQuestionable`);
(3) otherwise `moderate_mixed` (`moderateMixed`).  In particular a bias
text containing "high" but not "low" resolves to `high_questionable`
regardless of the factuality.  The final conjunct grounds the executable
substring test in its declarative meaning. -/
theorem C1_classifier_rules :
    (∀ b f : String,
        containsSub "low".data (lowerChars b.data) = true →
        containsSub "factual".data (lowerChars f.data) = true →
        reaction_category b f = .low_factual) ∧
    (∀ b f : String,
        ¬ (containsSub "low".data (lowerChars b.data) = true ∧
            containsSub "factual".data (lowerChars f.data) = true) →
        (containsSub "high".data (lowerChars b.data) = true ∨
            containsSub "questionable".data (lowerChars f.data) = true) →
        reaction_category b f = .high_questionable) ∧
    (∀ b f : String,
        ¬ (containsSub "low".data (lowerChars b.data) = true ∧
            containsSub "factual".data (lowerChars f.data) = true) →
        ¬ (containsSub "high".data (lowerChars b.data) = true ∨
            containsSub "questionable".data (lowerChars f.data) = true) →
        reaction_category b f = .moderate_mixed) ∧
    (∀ b f : String,
        containsSub "high".data (lowerChars b.data) = true →
        containsSub "low".data (lowerChars b.data) = false →
        reaction_category b f = .high_questionable) ∧
    (∀ needle hay : List Char, containsSub needle hay = true ↔ ∃ l r, hay = l ++ needle ++ r) := by
  refine ⟨?_, ?_, ?_, ?_, containsSub_iff⟩
  · intro b f h1 h2
    simp [reaction_category, h1, h2]
  · intro b f hn hor
    have hand : (containsSub "low".data (lowerChars b.data) &&
        containsSub "factual".data (lowerChars f.data)) = false := by
      cases h1 : containsSub "low".data (lowerChars b.data) with
      | false => simp
      | true =>
        cases h2 : containsSub "factual".data (lowerChars f.data) with
        | false => simp
        | true => exact absurd ⟨h1, h2⟩ hn
    have hor2 : (containsSub "high".data (lowerChars b.data) ||
        containsSub "questionable".data (lowerChars f.data)) = true := by
      rcases hor with h3 | h3 <;> simp [h3]
    simp [reaction_category, hand, hor2]
  · intro b f hn hnor
    have hand : (containsSub "low".data (lowerChars b.data) &&
        containsSub "factual".data (lowerChars f.data)) = false := by
      cases h1 : containsSub "low".data (lowerChars b.data) with
      | false => simp
      | true =>
        cases h2 : containsSub "factual".data (lowerChars f.data) with
        | false => simp
        | true => exact absurd ⟨h1, h2⟩ hn
    have h3 : containsSub "high".data (lowerChars b.data) = false := by
      cases h : containsSub "high".data (lowerChars b.data) with
      | false => rfl
      | true => exact absurd (Or.inl h) hnor
    have h4 : containsSub "questionable".data (lowerChars f.data) = false := by
      cases h : containsSub "questionable".data (lowerChars f.data) with
      | false => rfl
      | true => exact absurd (Or.inr h) hnor
    simp [reaction_category, hand, h3, h4]
  · intro b f hh hl
    simp [reaction_category, hh, hl]

/-- Witness for C1 at concrete classifier inputs. -/
theorem C1_classifier_rules_witness :
    reaction_category "Low" "Factual" = .low_factual ∧
    reaction_category "High" "Opinion" = .high_questionable ∧
    reaction_category "Moderate" "Mixed" = .moderate_mixed ∧
    reaction_category "HIGH" "Factual" = .high_questionable :=
  ⟨C1_classifier_rules.1 "Low" "Factual" (by decide) (by decide),
   C1_classifier_rules.2.1 "High" "Opinion" (by decide) (Or.inl (by decide)),
   C1_classifier_rules.2.2.1 "Moderate" "Mixed" (by decide) (by decide),
   C1_classifier_rules.2.2.2.1 "HIGH" "Factual" (by decide) (by decide)⟩

/-- C5: when the assessment text has no `Bias:` (resp. `Factuality:`)
field, the extracted value is the sentinel `"Unknown"`; when both are
absent the classification is always `moderate_mixed` (the spec's
`moderateMixed`), because `"Unknown"` lowered contains none of the four
trigger substrings. -/
theorem C5_unknown_defaults :
    (∀ a : String, searchLabel "Bias:".data a.data = none → bias_level_of a = "Unknown") ∧
    (∀ a : String, searchLabel "Factuality:".data a.data = none → factuality_of a = "Unknown") ∧
    (∀ a : String, searchLabel "Bias:".data a.data = none →
        searchLabel "Factuality:".data a.data = none →
        reaction_category (bias_level_of a) (factuality_of a) = .moderate_mixed) ∧
    containsSub "low".data (lowerChars "Unknown".data) = false ∧
    containsSub "high".data (lowerChars "Unknown".data) = false ∧
    containsSub "factual".data (lowerChars "Unknown".data) = false ∧
    containsSub "questionable".data (lowerChars "Unknown".data) = false ∧
    reaction_category "Unknown" "Unknown" = .moderate_mixed := by
  have hb : ∀ a : String, searchLabel "Bias:".data a.data = none → bias_level_of a = "Unknown" := by
    intro a h
    simp [bias_level_of, h]
  have hf : ∀ a : String, searchLabel "Factuality:".data a.data = none → factuality_of a = "Unknown" := by
    intro a h
    simp [factuality_of, h]
  refine ⟨hb, hf, ?_, by decide, by decide, by decide, by decide, by decide⟩
  intro a h1 h2
  rw [hb a h1, hf a h2]
  decide

/-- Witness for C5 at a field-free assessment text. -/
theorem C5_unknown_defaults_witness :
    bias_level_of "no labels here" = "Unknown" ∧
    factuality_of "no labels here" = "Unknown" ∧
    reaction_category (bias_level_of "no labels here") (factuality_of "no labels here") =
      .moderate_mixed :=
  ⟨C5_unknown_defaults.1 "no labels here" (by decide),
   C5_unknown_defaults.2.1 "no labels here" (by decide),
   C5_unknown_defaults.2.2.1 "no labels here" (by decide) (by decide)⟩

/-- C9: an input starting with the literal `PT` whose remainder has no
parseable hours, minutes or seconds component (all three regex groups
empty) yields `"0s"`, not `"Unknown"` — e.g. `"PT"` and `"PTabc"`. -/
theorem C9_pt_without_components :
    format_duration "PT" = "0s" ∧
    format_duration "PTabc" = "0s" ∧
    (∀ (s : String) (cs : List Char), s.data = 'P' :: 'T' :: cs →
        (durationGroup 'H' cs).1 = none →
        (durationGroup 'M' cs).1 = none →
        (durationGroup 'S' cs).1 = none →
        format_duration s = "0s") := by
  refine ⟨by decide, by decide, ?_⟩
  intro s cs hs h1 h2 h3
  have e1 := durationGroup_fst_none 'H' cs h1
  have e2 := durationGroup_fst_none 'M' cs h2
  have e3 := durationGroup_fst_none 'S' cs h3
  simp [format_duration, hs, e1, e2, e3]

/-- Witness for C9 at `"PTxy"`. -/
theorem C9_pt_without_components_witness :
    format_duration "PTxy" = "0s" :=
  C9_pt_without_components.2.2 "PTxy" ['x', 'y'] (by decide) (by decide) (by decide) (by decide)

/-- Counterexample for C2: `"PT0H0M0S"` denotes a fully-zero duration,
yet `format_duration` renders it as `"0h 0m 0s"`, not `"0s"` — Python
keeps a zero component because the captured group `"0"` is a non-empty,
hence truthy, string. -/
theorem C2_counterexample :
    format_duration "PT0H0M0S" = "0h 0m 0s" ∧ "0h 0m 0s" ≠ "0s" := by
  constructor
  · decide
  · decide

/-- C2 (amended): `format_duration "PT1H23M45S" = "1h 23m 45s"`,
`format_duration "PT0S" = "0s"`, `format_duration "" = "Unknown"`; every
token not starting with the literal `PT` yields `"Unknown"` (never a
failure), and `PT` prefixing is exactly the declarative
`∃ t, data = 'P' :: 'T' :: t`; every canonical hours/minutes/seconds
token renders hours then minutes then seconds, space-separated, each
with its unit letter, missing components omitted; a component-free
duration yields `"0s"`, while zero-valued components are rendered like
any other value (`"PT0H0M0S"` gives `"0h 0m 0s"`, not `"0s"`). -/
theorem C2_format_duration :
    format_duration "PT1H23M45S" = "1h 23m 45s" ∧
    format_duration "PT0S" = "0s" ∧
    format_duration "" = "Unknown" ∧
    (∀ s : String, s.data.take 2 ≠ ['P', 'T'] → format_duration s = "Unknown") ∧
    (∀ s : String, s.data.take 2 = ['P', 'T'] ↔ ∃ t, s.data = 'P' :: 'T' :: t) ∧
    (∀ oh om os : Option (List Char),
        (∀ d, oh = some d → d ≠ [] ∧ d.all isDigitChar = true) →
        (∀ d, om = some d → d ≠ [] ∧ d.all isDigitChar = true) →
        (∀ d, os = some d → d ≠ [] ∧ d.all isDigitChar = true) →
        format_duration (durToken oh om os) = durRender oh om os) ∧
    durRender none none none = "0s" ∧
    format_duration "PT0H0M0S" = "0h 0m 0s" := by
  refine ⟨by decide, by decide, by decide, ?_, ?_, format_duration_durToken, by decide, by decide⟩
  · intro s h
    simp [format_duration, h]
  · intro s
    exact take_two_eq_iff s.data

/-- Witness for C2 at an unparseable token and a canonical token. -/
theorem C2_format_duration_witness :
    format_duration "23 minutes" = "Unknown" ∧
    format_duration (durToken (some ['2']) none (some ['4', '5'])) =
      durRender (some ['2']) none (some ['4', '5']) :=
  ⟨C2_format_duration.2.2.2.1 "23 minutes" (by decide),
   C2_format_duration.2.2.2.2.2.1 (some ['2']) none (some ['4', '5'])
     (by intro d hd; injection hd with hd; subst hd; exact ⟨by decide, by decide⟩)
     (by intro d hd; cases hd)
     (by intro d hd; injection hd with hd; subst hd; exact ⟨by decide, by decide⟩)⟩

/-- C3: for every input containing one of the three pattern families
(`v=`/path-segment form, `embed/` form, `youtu.be/` form),
`extract_video_id` returns exactly an 11-character identifier segment
(over `[0-9A-Za-z_-]`) that occurs in the input immediately after a `v=`
or a `/`; for every input containing none of the shapes it returns
`none`; and the first pattern family has priority. -/
theorem C3_extract_video_id_contract :
    (∀ s : String,
        ShapeV s.data ∨ ShapeLit "embed/".data s.data ∨ ShapeLit "youtu.be/".data s.data →
        ∃ id, extract_video_id s = some (String.mk id) ∧ id.length = 11 ∧
          id.all isIdChar = true ∧
          ∃ l r, s.data = l ++ 'v' :: '=' :: (id ++ r) ∨ s.data = l ++ '/' :: (id ++ r)) ∧
    (∀ s : String,
        ¬ ShapeV s.data → ¬ ShapeLit "embed/".data s.data →
        ¬ ShapeLit "youtu.be/".data s.data →
        extract_video_id s = none) ∧
    (∀ (s : String) (id : List Char),
        scanPatV s.data = some id → extract_video_id s = some (String.mk id)) := by
  refine ⟨?_, ?_, ?_⟩
  · intro s hshape
    have hV : ShapeV s.data := by
      rcases hshape with h | h | h
      · exact h
      · exact ShapeLit_slash_to_ShapeV ['e', 'm', 'b', 'e', 'd'] s.data (embed_eq ▸ h)
      · exact ShapeLit_slash_to_ShapeV ['y', 'o', 'u', 't', 'u', '.', 'b', 'e'] s.data
          (youtube_short_eq ▸ h)
    obtain ⟨id, hid⟩ := scanPatV_isSome s.data hV
    obtain ⟨h1, h2, l, r, h3⟩ := scanPatV_some s.data id hid
    refine ⟨id, ?_, h1, h2, l, r, h3⟩
    unfold extract_video_id
    rw [hid]
  · intro s h1 h2 h3
    have e1 : scanPatV s.data = none := (scanPatV_none_iff s.data).mpr h1
    have e2 : scanPatLit "embed/".data s.data = none := (scanPatLit_none_iff _ s.data).mpr h2
    have e3 : scanPatLit "youtu.be/".data s.data = none := (scanPatLit_none_iff _ s.data).mpr h3
    unfold extract_video_id
    rw [e1, e2, e3]
  · intro s id hid
    unfold extract_video_id
    rw [hid]

/-- Witness for C3: a short-host link is resolved to its identifier
segment, and a shape-free text gives `none`. -/
theorem C3_extract_video_id_contract_witness :
    (∃ id, extract_video_id "youtu.be/dQw4w9WgXcQ" = some (String.mk id) ∧
      id.length = 11 ∧ id.all isIdChar = true ∧
      ∃ l r, "youtu.be/dQw4w9WgXcQ".data = l ++ 'v' :: '=' :: (id ++ r) ∨
        "youtu.be/dQw4w9WgXcQ".data = l ++ '/' :: (id ++ r)) ∧
    extract_video_id "no link at all" = none :=
  ⟨C3_extract_video_id_contract.1 "youtu.be/dQw4w9WgXcQ"
      (Or.inr (Or.inr ⟨[], "dQw4w9WgXcQ".data, [], by decide, by decide, by decide⟩)),
   C3_extract_video_id_contract.2.1 "no link at all"
      ((scanPatV_none_iff _).mp (by decide))
      ((scanPatLit_none_iff _ _).mp (by decide))
      ((scanPatLit_none_iff _ _).mp (by decide))⟩

/-- C10: any `/` immediately followed by 11 identifier characters makes
`extract_video_id` return some 11-character identifier — the first
pattern family matches any slash-delimited run, so unrelated URLs yield
a (possibly spurious) identifier. -/
theorem C10_slash_run_never_none :
    ∀ (s : String) (l id r : List Char),
      s.data = l ++ '/' :: (id ++ r) → id.length = 11 → id.all isIdChar = true →
      ∃ idr, extract_video_id s = some (String.mk idr) ∧ idr.length = 11 ∧
        idr.all isIdChar = true := by
  intro s l id r hs hlen hall
  have hV : ShapeV s.data := ⟨l, id, r, Or.inr hs, hlen, hall⟩
  obtain ⟨idr, hid⟩ := scanPatV_isSome s.data hV
  obtain ⟨h1, h2, -⟩ := scanPatV_some s.data idr hid
  refine ⟨idr, ?_, h1, h2⟩
  unfold extract_video_id
  rw [hid]

/-- Witness for C10 at a non-YouTube URL whose path holds an
11-character segment. -/
theorem C10_slash_run_never_none_witness :
    ∃ idr, extract_video_id "https://example.com/ABCDEFGHIJK" = some (String.mk idr) ∧
      idr.length = 11 ∧ idr.all isIdChar = true :=
  C10_slash_run_never_none "https://example.com/ABCDEFGHIJK"
    "https://example.com".data "ABCDEFGHIJK".data [] (by decide) (by decide) (by decide)

theorem chooseHead_mem : ∀ l : List String, l ≠ [] → chooseHead l ∈ l := by
  intro l hl
  cases l with
  | nil => exact absurd rfl hl
  | cons a t => simp [chooseHead]

theorem containsSub_hay_ne_nil (needle hay : List Char)
    (h : containsSub needle hay = true) (hne : needle ≠ []) : hay ≠ [] := by
  obtain ⟨l, r, hr⟩ := (containsSub_iff needle hay).mp h
  intro h0
  rw [h0] at hr
  exact hne (List.append_eq_nil.mp (List.append_eq_nil.mp hr.symm).1).2

/-- C6: whenever the link yields a valid identifier but the catalog
returns zero items, the pipeline edits the status message to the
`Video Not Found` reply and terminates: the trace is exactly the loading
message plus that edit, the reply starts with the marker, and no
generative-text call occurs. -/
theorem C6_not_found_terminal :
    ∀ (fetch : String → Except String CatalogResponse)
      (gen : String → Except String String)
      (choose : List String → String) (reportNum : Nat) (url vid : String),
      extract_video_id url = some vid →
      fetch vid = Except.ok ⟨[]⟩ →
      summarize_youtube fetch gen choose reportNum url =
        [PipeEvent.sent (choose loading_messages),
         PipeEvent.edited "❌ *Video Not Found:* This video is unavailable or has been removed."] ∧
      (∃ m, summarize_youtube fetch gen choose reportNum url =
          [PipeEvent.sent (choose loading_messages), PipeEvent.edited m] ∧
          "❌ *Video Not Found:*".data.isPrefixOf m.data = true) ∧
      ∀ p, PipeEvent.aiCall p ∉ summarize_youtube fetch gen choose reportNum url := by
  intro fetch gen choose reportNum url vid hx hf
  have htr : summarize_youtube fetch gen choose reportNum url =
      [PipeEvent.sent (choose loading_messages),
       PipeEvent.edited "❌ *Video Not Found:* This video is unavailable or has been removed."] := by
    simp [summarize_youtube, hx, hf]
  refine ⟨htr, ⟨_, htr, by decide⟩, ?_⟩
  intro p
  rw [htr]
  simp

/-- Witness for C6 with a concrete link and an empty catalog. -/
theorem C6_not_found_terminal_witness :
    summarize_youtube fetchNone genConst chooseHead 7 "youtu.be/dQw4w9WgXcQ" =
      [PipeEvent.sent (chooseHead loading_messages),
       PipeEvent.edited "❌ *Video Not Found:* This video is unavailable or has been removed."] ∧
    (∃ m, summarize_youtube fetchNone genConst chooseHead 7 "youtu.be/dQw4w9WgXcQ" =
        [PipeEvent.sent (chooseHead loading_messages), PipeEvent.edited m] ∧
        "❌ *Video Not Found:*".data.isPrefixOf m.data = true) ∧
    ∀ p, PipeEvent.aiCall p ∉ summarize_youtube fetchNone genConst chooseHead 7 "youtu.be/dQw4w9WgXcQ" :=
  C6_not_found_terminal fetchNone genConst chooseHead 7 "youtu.be/dQw4w9WgXcQ" "dQw4w9WgXcQ"
    (by decide) rfl

/-- C8: a non-command text message enters the analysis pipeline exactly
when it contains `youtube.com` or `youtu.be` (Python substring test);
otherwise the reply is one member of the three fixed "not a link"
strings and the pipeline is never invoked (no AI call, no edit). -/
theorem C8_message_gate :
    (∀ (fetch : String → Except String CatalogResponse)
        (gen : String → Except String String)
        (choose : List String → String) (reportNum : Nat) (text : String),
        (containsSubStr "youtube.com" text = true ∨ containsSubStr "youtu.be" text = true) →
        handle_message fetch gen choose reportNum text =
          summarize_youtube fetch gen choose reportNum text) ∧
    (∀ (fetch : String → Except String CatalogResponse)
        (gen : String → Except String String)
        (choose : List String → String) (reportNum : Nat) (text : String),
        containsSubStr "youtube.com" text = false →
        containsSubStr "youtu.be" text = false →
        handle_message fetch gen choose reportNum text =
          [PipeEvent.sent (choose not_link_reactions)] ∧
        (∀ p, PipeEvent.aiCall p ∉ handle_message fetch gen choose reportNum text) ∧
        (∀ m, PipeEvent.edited m ∉ handle_message fetch gen choose reportNum text) ∧
        ((∀ l, l ≠ [] → choose l ∈ l) →
          choose not_link_reactions ∈ not_link_reactions)) := by
  constructor
  · intro fetch gen choose reportNum text hor
    have hne : text.data ≠ [] := by
      rcases hor with h | h
      · exact containsSub_hay_ne_nil _ _ h (by decide)
      · exact containsSub_hay_ne_nil _ _ h (by decide)
    have h1 : ¬ text.data.isEmpty = true := by
      simpa [List.isEmpty_iff] using hne
    have h2 : (containsSubStr "youtube.com" text || containsSubStr "youtu.be" text) = true := by
      rcases hor with h | h <;> simp [h]
    simp [handle_message, h1, h2]
  · intro fetch gen choose reportNum text hc1 hc2
    have htr : handle_message fetch gen choose reportNum text =
        [PipeEvent.sent (choose not_link_reactions)] := by
      simp [handle_message, hc1, hc2]
    refine ⟨htr, ?_, ?_, fun hch => hch _ (by decide)⟩
    · intro p; rw [htr]; simp
    · intro m; rw [htr]; simp

/-- Witness for C8: a YouTube link enters the pipeline; plain text gets
one of the fixed replies. -/
theorem C8_message_gate_witness :
    handle_message fetchNone genConst chooseHead 7 "see youtu.be/dQw4w9WgXcQ" =
      summarize_youtube fetchNone genConst chooseHead 7 "see youtu.be/dQw4w9WgXcQ" ∧
    (handle_message fetchNone genConst chooseHead 7 "hello" =
        [PipeEvent.sent (chooseHead not_link_reactions)] ∧
      (∀ p, PipeEvent.aiCall p ∉ handle_message fetchNone genConst chooseHead 7 "hello") ∧
      (∀ m, PipeEvent.edited m ∉ handle_message fetchNone genConst chooseHead 7 "hello") ∧
      ((∀ l, l ≠ [] → chooseHead l ∈ l) →
        chooseHead not_link_reactions ∈ not_link_reactions)) :=
  ⟨C8_message_gate.1 fetchNone genConst chooseHead 7 "see youtu.be/dQw4w9WgXcQ"
      (Or.inr (by decide)),
   C8_message_gate.2 fetchNone genConst chooseHead 7 "hello" (by decide) (by decide)⟩

theorem toDigitsCore_step (f n : Nat) (h : n / 10 ≠ 0) :
    (Nat.toDigitsCore 10 (f + 1) n []).length =
      (Nat.toDigitsCore 10 f (n / 10) []).length + 1 := by
  have e : Nat.toDigitsCore 10 (f + 1) n [] =
      Nat.toDigitsCore 10 f (n / 10) [Nat.digitChar (n % 10)] := by
    simp [Nat.toDigitsCore, h]
  rw [e]
  exact Nat.toDigitsCore_lens_eq 10 f (n / 10) (Nat.digitChar (n % 10)) []

theorem toDigitsCore_base (f n : Nat) (h0 : n / 10 = 0) :
    (Nat.toDigitsCore 10 (f + 1) n []).length = 1 := by
  simp [Nat.toDigitsCore, h0]

theorem repr_len_four (n : Nat) (h1 : 1000 ≤ n) (h2 : n < 10000) :
    (Nat.repr n).length = 4 := by
  have hlen : (Nat.repr n).length = (Nat.toDigitsCore 10 (n + 1) n []).length := by
    simp [Nat.repr, Nat.toDigits, String.length, List.asString]
  have s1 : (Nat.toDigitsCore 10 (n + 1) n []).length =
      (Nat.toDigitsCore 10 n (n / 10) []).length + 1 :=
    toDigitsCore_step n n (by omega)
  have e1 : n = (n - 1) + 1 := by omega
  have s2 : (Nat.toDigitsCore 10 n (n / 10) []).length =
      (Nat.toDigitsCore 10 (n - 1) (n / 10 / 10) []).length + 1 := by
    have h := toDigitsCore_step (n - 1) (n / 10) (by omega)
    rwa [← e1] at h
  have e2 : n - 1 = (n - 2) + 1 := by omega
  have s3 : (Nat.toDigitsCore 10 (n - 1) (n / 10 / 10) []).length =
      (Nat.toDigitsCore 10 (n - 2) (n / 10 / 10 / 10) []).length + 1 := by
    have h := toDigitsCore_step (n - 2) (n / 10 / 10) (by omega)
    rwa [← e2] at h
  have e3 : n - 2 = (n - 3) + 1 := by omega
  have s4 : (Nat.toDigitsCore 10 (n - 2) (n / 10 / 10 / 10) []).length = 1 := by
    have h := toDigitsCore_base (n - 3) (n / 10 / 10 / 10) (by omega)
    rwa [← e3] at h
  omega

theorem string_append_assoc (a b c : String) : a ++ b ++ c = a ++ (b ++ c) :=
  String.ext (by simp [List.append_assoc])

/-- The report `compose_report` is, in fixed order: report number header, title
line, channel line, duration line, views line, canonical link, raw AI
text verbatim, divider, reaction line. -/
theorem compose_report_shape (rn : Nat) (t c d v idv a r : String) :
    compose_report rn t c d v idv a r =
      "🕵️ *INVESTIGATION REPORT #" ++ Nat.repr rn
        ++ "*\n━━━━━━━━━━━━━━━━━━\n\n*Title:* " ++ t
        ++ "\n*Channel:* " ++ c
        ++ "\n*Duration:* " ++ d
        ++ "\n*Views:* " ++ v
        ++ "\n*Link:* https://youtube.com/watch?v=" ++ idv
        ++ "\n\n" ++ a
        ++ "\n\n━━━━━━━━━━━━━━━━━━\n" ++ r := by
  have m1 : "*\n━━━━━━━━━━━━━━━━━━\n\n*Title:* " =
      "*\n" ++ "━━━━━━━━━━━━━━━━━━\n\n" ++ "*Title:* " := rfl
  have m2 : "\n*Channel:* " = "\n" ++ "*Channel:* " := rfl
  have m3 : "\n*Duration:* " = "\n" ++ "*Duration:* " := rfl
  have m4 : "\n*Views:* " = "\n" ++ "*Views:* " := rfl
  have m5 : "\n*Link:* https://youtube.com/watch?v=" =
      "\n" ++ "*Link:* https://youtube.com/watch?v=" := rfl
  have m7 : "\n\n━━━━━━━━━━━━━━━━━━\n" = "\n\n" ++ "━━━━━━━━━━━━━━━━━━\n" := rfl
  simp only [compose_report, m1, m2, m3, m4, m5, m7, string_append_assoc]

theorem containsSubSpec_middle (needle mid pre post : List Char)
    (h : ContainsSubSpec needle mid) : ContainsSubSpec needle (pre ++ mid ++ post) := by
  obtain ⟨l, r, hr⟩ := h
  exact ⟨pre ++ l, r ++ post, by simp [hr, List.append_assoc]⟩

/-- Counterexample for C7: in the end-to-end scenario (title `Sample`,
channel `Chan`, duration `PT3M33S`, viewCount 1000000, identifier
`dQw4w9WgXcQ`) the final reply does *not* contain `"Duration: 3m 33s"`
or `"Views: 1.0M"` as substrings: the report writes the field labels
with Markdown bold markers, `*Duration:* 3m 33s` and `*Views:* 1.0M`. -/
theorem C7_counterexample :
    ∃ rep, (summarize_youtube fetchC7 genC7 chooseHead 1234 urlC7).getLast? =
        some (PipeEvent.edited rep) ∧
      containsSubStr "Duration: 3m 33s" rep = false ∧
      containsSubStr "Views: 1.0M" rep = false ∧
      containsSubStr "*Duration:* 3m 33s" rep = true ∧
      containsSubStr "*Views:* 1.0M" rep = true := by
  refine ⟨_, rfl, by decide, by decide, by decide, by decide⟩

/-- C7 (amended): in the end-to-end scenario the pipeline's final edit
is the composed report, which contains, in fixed order: the 4-digit
report number, a title line, a channel line, the formatted duration
line, the formatted view-count line, the canonical link
`https://youtube.com/watch?v=<id>`, the raw AI text verbatim, a visual
divider, and the chosen reaction line.  The field lines carry Markdown
bold markers, so the report contains `"*Duration:* 3m 33s"` and
`"*Views:* 1.0M"` (not the marker-free forms) and a link ending in
`dQw4w9WgXcQ`. -/
theorem C7_report_format :
    ∀ (choose : List String → String) (rn : Nat) (A : String),
      1000 ≤ rn → rn < 10000 →
      ∃ rep,
        summarize_youtube fetchC7 (fun _ => Except.ok A) choose rn urlC7 =
          [PipeEvent.sent (choose loading_messages),
           PipeEvent.edited "🤖 Running analysis algorithms...",
           PipeEvent.aiCall (build_prompt "Sample" "Chan" "No description available"),
           PipeEvent.edited rep] ∧
        rep = "🕵️ *INVESTIGATION REPORT #" ++ Nat.repr rn
          ++ "*\n━━━━━━━━━━━━━━━━━━\n\n*Title:* " ++ "Sample"
          ++ "\n*Channel:* " ++ "Chan"
          ++ "\n*Duration:* " ++ "3m 33s"
          ++ "\n*Views:* " ++ "1.0M"
          ++ "\n*Link:* https://youtube.com/watch?v=" ++ "dQw4w9WgXcQ"
          ++ "\n\n" ++ pyStrip A
          ++ "\n\n━━━━━━━━━━━━━━━━━━\n"
          ++ choose (reactionsFor (reaction_category (bias_level_of (pyStrip A))
              (factuality_of (pyStrip A)))) ∧
        (Nat.repr rn).length = 4 ∧
        ContainsSubSpec "*Duration:* 3m 33s".data rep.data ∧
        ContainsSubSpec "*Views:* 1.0M".data rep.data ∧
        ContainsSubSpec "youtube.com/watch?v=dQw4w9WgXcQ".data rep.data := by
  intro choose rn A h1 h2
  have hx : extract_video_id urlC7 = some "dQw4w9WgXcQ" := by decide
  have hdur : format_duration "PT3M33S" = "3m 33s" := by decide
  have hviews : format_views 1000000 = Except.ok "1.0M" := by rfl
  set reaction := choose (reactionsFor (reaction_category (bias_level_of (pyStrip A))
      (factuality_of (pyStrip A)))) with hreaction
  refine ⟨compose_report rn "Sample" "Chan" "3m 33s" "1.0M" "dQw4w9WgXcQ" (pyStrip A) reaction,
    ?_, ?_, repr_len_four rn h1 h2, ?_, ?_, ?_⟩
  · simp [summarize_youtube, hx, fetchC7, itemC7, hdur, hviews, get_detective_reaction, hreaction]
  · exact compose_report_shape rn "Sample" "Chan" "3m 33s" "1.0M" "dQw4w9WgXcQ" (pyStrip A) reaction
  · have hdata : (compose_report rn "Sample" "Chan" "3m 33s" "1.0M" "dQw4w9WgXcQ"
        (pyStrip A) reaction).data =
        ("🕵️ *INVESTIGATION REPORT #".data ++ (Nat.repr rn).data
            ++ "*\n━━━━━━━━━━━━━━━━━━\n\n*Title:* Sample\n*Channel:* Chan".data)
          ++ "\n*Duration:* 3m 33s".data
          ++ ("\n*Views:* 1.0M\n*Link:* https://youtube.com/watch?v=dQw4w9WgXcQ\n\n".data
            ++ (pyStrip A).data ++ "\n\n━━━━━━━━━━━━━━━━━━\n".data ++ reaction.data) := by
      rw [compose_report_shape]
      simp [List.append_assoc]
    rw [hdata]
    exact containsSubSpec_middle _ _ _ _ ((containsSub_iff _ _).mp (by decide))
  · have hdata : (compose_report rn "Sample" "Chan" "3m 33s" "1.0M" "dQw4w9WgXcQ"
        (pyStrip A) reaction).data =
        ("🕵️ *INVESTIGATION REPORT #".data ++ (Nat.repr rn).data
            ++ "*\n━━━━━━━━━━━━━━━━━━\n\n*Title:* Sample\n*Channel:* Chan\n*Duration:* 3m 33s".data)
          ++ "\n*Views:* 1.0M".data
          ++ ("\n*Link:* https://youtube.com/watch?v=dQw4w9WgXcQ\n\n".data
            ++ (pyStrip A).data ++ "\n\n━━━━━━━━━━━━━━━━━━\n".data ++ reaction.data) := by
      rw [compose_report_shape]
      simp [List.append_assoc]
    rw [hdata]
    exact containsSubSpec_middle _ _ _ _ ((containsSub_iff _ _).mp (by decide))
  · have hdata : (compose_report rn "Sample" "Chan" "3m 33s" "1.0M" "dQw4w9WgXcQ"
        (pyStrip A) reaction).data =
        ("🕵️ *INVESTIGATION REPORT #".data ++ (Nat.repr rn).data
            ++ "*\n━━━━━━━━━━━━━━━━━━\n\n*Title:* Sample\n*Channel:* Chan\n*Duration:* 3m 33s\n*Views:* 1.0M".data)
          ++ "\n*Link:* https://youtube.com/watch?v=dQw4w9WgXcQ\n\n".data
          ++ ((pyStrip A).data ++ "\n\n━━━━━━━━━━━━━━━━━━\n".data ++ reaction.data) := by
      rw [compose_report_shape]
      simp [List.append_assoc]
    rw [hdata]
    exact containsSubSpec_middle _ _ _ _ ((containsSub_iff _ _).mp (by decide))

/-- Witness for C7 at a concrete report number and AI text. -/
theorem C7_report_format_witness :
    ∃ rep,
      summarize_youtube fetchC7 (fun _ => Except.ok "Bias: Low\nFactuality: Factual")
          chooseHead 1234 urlC7 =
        [PipeEvent.sent (chooseHead loading_messages),
         PipeEvent.edited "🤖 Running analysis algorithms...",
         PipeEvent.aiCall (build_prompt "Sample" "Chan" "No description available"),
         PipeEvent.edited rep] ∧
      rep = "🕵️ *INVESTIGATION REPORT #" ++ Nat.repr 1234
        ++ "*\n━━━━━━━━━━━━━━━━━━\n\n*Title:* " ++ "Sample"
        ++ "\n*Channel:* " ++ "Chan"
        ++ "\n*Duration:* " ++ "3m 33s"
        ++ "\n*Views:* " ++ "1.0M"
        ++ "\n*Link:* https://youtube.com/watch?v=" ++ "dQw4w9WgXcQ"
        ++ "\n\n" ++ pyStrip "Bias: Low\nFactuality: Factual"
        ++ "\n\n━━━━━━━━━━━━━━━━━━\n"
        ++ chooseHead (reactionsFor (reaction_category
            (bias_level_of (pyStrip "Bias: Low\nFactuality: Factual"))
            (factuality_of (pyStrip "Bias: Low\nFactuality: Factual")))) ∧
      (Nat.repr 1234).length = 4 ∧
      ContainsSubSpec "*Duration:* 3m 33s".data rep.data ∧
      ContainsSubSpec "*Views:* 1.0M".data rep.data ∧
      ContainsSubSpec "youtube.com/watch?v=dQw4w9WgXcQ".data rep.data :=
  C7_report_format chooseHead 1234 "Bias: Low\nFactuality: Factual" (by decide) (by decide)

theorem log2Fuel_spec : ∀ (fuel n : Nat), 0 < n → n < 2 ^ fuel →
    2 ^ (log2Fuel fuel n) ≤ n ∧ n < 2 ^ (log2Fuel fuel n + 1) := by
  intro fuel
  induction fuel with
  | zero =>
    intro n h1 h2
    simp at h2
    omega
  | succ f ih =>
    intro n h1 h2
    rw [log2Fuel]
    split
    · rename_i hn2
      constructor
      · simpa using h1
      · simpa using hn2
    · rename_i hn2
      have hd1 : 0 < n / 2 := by omega
      have hd2 : n / 2 < 2 ^ f := by
        rw [pow_succ] at h2
        omega
      obtain ⟨ha, hb⟩ := ih (n / 2) hd1 hd2
      constructor
      · rw [pow_succ]
        omega
      · rw [pow_succ] at hb ⊢
        rw [pow_succ]
        omega

theorem rheNat_le (num den : Nat) : rheNat num den ≤ num / den + 1 := by
  unfold rheNat
  split_ifs <;> omega

theorem rheNat_err (num den : Nat) (hden : 0 < den) :
    ((2 * (rheNat num den) * den : Int) - 2 * num).natAbs ≤ den := by
  have hmod : den * (num / den) + num % den = num := Nat.div_add_mod num den
  have hnum : (num : Int) = den * (num / den : Nat) + (num % den : Nat) := by
    exact_mod_cast hmod.symm
  have hlt : num % den < den := Nat.mod_lt _ hden
  have key1 : ((2 * ((num / den : Nat) : Int) * den) - 2 * num) = -2 * (num % den : Nat) := by
    rw [hnum]; ring
  have key2 : ((2 * (((num / den : Nat) : Int) + 1) * den) - 2 * num) =
      2 * den - 2 * (num % den : Nat) := by
    rw [hnum]; ring
  unfold rheNat
  split_ifs with hc1 hc2 hc3
  · rw [key1]; omega
  · rw [Nat.cast_add, Nat.cast_one, key2]; omega
  · rw [key1]; omega
  · rw [Nat.cast_add, Nat.cast_one, key2]; omega

theorem natAbs_mul_pow_le (x : Int) (c k : Nat) (h : x.natAbs ≤ c) :
    (x * 2 ^ k).natAbs ≤ c * 2 ^ k := by
  rw [Int.natAbs_mul]
  have : ((2 : Int) ^ k).natAbs = 2 ^ k := by
    simp [Int.natAbs_pow]
  rw [this]
  exact Nat.mul_le_mul_right _ h

theorem floatMantissa_err (a b n : Nat) (hb : 0 < b) :
    ((2 * (floatMantissa a b n * 2 ^ n) * b : Int) - 2 ^ 53 * a).natAbs ≤ b * 2 ^ n := by
  unfold floatMantissa
  split
  · rename_i h52
    obtain ⟨k, hk⟩ : ∃ k, 52 - n = k := ⟨52 - n, rfl⟩
    rw [hk]
    have herr := rheNat_err (a * 2 ^ k) b hb
    push_cast at herr
    have e : ((2 * (((rheNat (a * 2 ^ k) b : Nat) : Int) * 2 ^ n) * b) - 2 ^ 53 * a) =
        (2 * ((rheNat (a * 2 ^ k) b : Nat) : Int) * b - 2 * ((a : Int) * 2 ^ k)) * 2 ^ n := by
      rw [show (53 : Nat) = n + k + 1 by omega]
      ring
    rw [e]
    exact natAbs_mul_pow_le _ b n herr
  · rename_i h52
    obtain ⟨k, hk⟩ : ∃ k, n - 52 = k := ⟨n - 52, rfl⟩
    rw [hk]
    have hbpos : 0 < b * 2 ^ k := by positivity
    have herr := rheNat_err a (b * 2 ^ k) hbpos
    push_cast at herr
    have e : ((2 * (((rheNat a (b * 2 ^ k) : Nat) : Int) * 2 ^ n) * b) - 2 ^ 53 * a) =
        (2 * ((rheNat a (b * 2 ^ k) : Nat) : Int) * ((b : Int) * 2 ^ k) - 2 * a) * 2 ^ 52 := by
      rw [show n = k + 52 by omega, show (53 : Nat) = 52 + 1 by omega]
      push_cast
      ring
    rw [e]
    have := natAbs_mul_pow_le _ (b * 2 ^ k) 52 herr
    calc ((2 * ((rheNat a (b * 2 ^ k) : Nat) : Int) * ((b : Int) * 2 ^ k) - 2 * a) * 2 ^ 52).natAbs
        ≤ (b * 2 ^ k) * 2 ^ 52 := this
      _ = b * 2 ^ n := by
          rw [mul_assoc, ← pow_add]
          congr 2
          omega

theorem floatDivParts_spec (a b : Nat) (hb : 0 < b) (hba : b ≤ a)
    (hsm : a < b * 2 ^ 1023) :
    ∃ m n, floatDivParts a b = some (m, n) ∧
      a / b < 2 ^ (n + 1) ∧ 2 ^ n ≤ 2 * (a / b) ∧
      ((2 * ((m : Int) * 2 ^ n) * b) - 2 ^ 53 * a).natAbs ≤ b * 2 ^ n := by
  have hq1 : 1 ≤ a / b := (Nat.one_le_div_iff hb).mpr hba
  have hq2 : a / b < 2 ^ 1023 := by
    rw [Nat.div_lt_iff_lt_mul hb]
    calc a < b * 2 ^ 1023 := hsm
      _ = 2 ^ 1023 * b := by ring
  have hguard : ¬ (b * 2 ^ 1060 ≤ a) := by
    intro hcon
    have h1 : 2 ^ 1060 ≤ a / b := by
      rw [Nat.le_div_iff_mul_le hb]
      calc 2 ^ 1060 * b = b * 2 ^ 1060 := by ring
        _ ≤ a := hcon
    have h2 : (2 : Nat) ^ 1023 ≤ 2 ^ 1060 := Nat.pow_le_pow_right (by norm_num) (by norm_num)
    omega
  have hfuel : a / b < 2 ^ 1100 := by
    have : (2 : Nat) ^ 1023 ≤ 2 ^ 1100 := Nat.pow_le_pow_right (by norm_num) (by norm_num)
    omega
  obtain ⟨hlo, hhi⟩ := log2Fuel_spec 1100 (a / b) (by omega) hfuel
  have hn0 : log2Fuel 1100 (a / b) < 1023 := by
    by_contra hcon
    push_neg at hcon
    have : (2 : Nat) ^ 1023 ≤ 2 ^ (log2Fuel 1100 (a / b)) := Nat.pow_le_pow_right (by norm_num) hcon
    omega
  have hval := floatMantissa_err a b (log2Fuel 1100 (a / b)) hb
  rw [floatDivParts, if_neg hguard]
  split
  · rename_i hbump
    rw [if_pos (by omega)]
    refine ⟨2 ^ 52, log2Fuel 1100 (a / b) + 1, rfl, ?_, ?_, ?_⟩
    · calc a / b < 2 ^ (log2Fuel 1100 (a / b) + 1) := hhi
        _ ≤ 2 ^ (log2Fuel 1100 (a / b) + 1 + 1) := Nat.pow_le_pow_right (by norm_num) (by omega)
    · calc (2 : Nat) ^ (log2Fuel 1100 (a / b) + 1) = 2 ^ (log2Fuel 1100 (a / b)) * 2 := by
            rw [pow_succ]
        _ ≤ (a / b) * 2 := Nat.mul_le_mul_right 2 hlo
        _ = 2 * (a / b) := by ring
    · rw [hbump] at hval
      have e : (2 * (((2 ^ 52 : Nat) : Int) * 2 ^ (log2Fuel 1100 (a / b) + 1)) * b) =
          (2 * (((2 ^ 53 : Nat) : Int) * 2 ^ (log2Fuel 1100 (a / b))) * b) := by
        push_cast
        ring
      rw [e]
      calc ((2 * (((2 ^ 53 : Nat) : Int) * 2 ^ (log2Fuel 1100 (a / b))) * b) - 2 ^ 53 * a).natAbs
          ≤ b * 2 ^ (log2Fuel 1100 (a / b)) := hval
        _ ≤ b * 2 ^ (log2Fuel 1100 (a / b) + 1) :=
            Nat.mul_le_mul_left b (Nat.pow_le_pow_right (by norm_num) (by omega))
  · rw [if_pos (by omega)]
    exact ⟨_, _, rfl, hhi, by
      calc (2 : Nat) ^ (log2Fuel 1100 (a / b)) ≤ a / b := hlo
        _ ≤ 2 * (a / b) := by omega, hval⟩

theorem format_views_K_spec (c : Nat) (h1 : 1000 ≤ c) (h2 : c < 1000000) :
    ∃ t, format_views c = Except.ok (Nat.repr (t / 10) ++ "." ++ Nat.repr (t % 10) ++ "K") ∧
      t % 10 < 10 ∧ ((100 * (t : Int)) - c).natAbs ≤ 50 := by
  have hsm : c < 1000 * 2 ^ 1023 := by
    calc c < 1000000 := h2
      _ ≤ 1000 * 2 ^ 1023 := by norm_num
  obtain ⟨m, n, hsome, hhi, hlo, herr⟩ := floatDivParts_spec c 1000 (by norm_num) h1 hsm
  have hn : n ≤ 10 := by
    by_contra hcon
    push_neg at hcon
    have h11 : (2 : Nat) ^ 11 ≤ 2 ^ n := Nat.pow_le_pow_right (by norm_num) hcon
    have hq : c / 1000 ≤ 999 := by omega
    have h2n : (2 : Nat) ^ n ≤ 2 * (c / 1000) := hlo
    have : (2 : Nat) ^ 11 = 2048 := by norm_num
    omega
  have hn52 : n ≤ 52 := by omega
  refine ⟨rheNat (10 * m) (2 ^ (52 - n)), ?_, Nat.mod_lt _ (by norm_num), ?_⟩
  · rw [format_views, if_neg (by omega), if_pos h1, hsome]
    simp [fmtOneDec, hn52]
  · obtain ⟨k, hk1, hk2⟩ : ∃ k, 52 - n = k ∧ n + k = 52 := ⟨52 - n, rfl, by omega⟩
    rw [hk1]
    have herr2 := rheNat_err (10 * m) (2 ^ (52 - n)) (by positivity)
    rw [hk1] at herr2
    have E2 := natAbs_mul_pow_le _ (2 ^ k) n herr2
    have hpk : (2 : Nat) ^ k * 2 ^ n = 2 ^ 52 := by
      rw [← pow_add]
      congr 1
      omega
    rw [hpk] at E2
    have e2shape : ((2 * ((rheNat (10 * m) (2 ^ k) : Nat) : Int) * ((2 ^ k : Nat) : Int) -
        2 * ((10 * m : Nat) : Int)) * 2 ^ n) =
        (2 * 2 ^ 52 * ((rheNat (10 * m) (2 ^ k) : Nat) : Int) - 20 * ((m : Int) * 2 ^ n)) := by
      rw [show (52 : Nat) = k + n by omega]
      push_cast
      ring
    rw [e2shape] at E2
    have E1 : ((2000 * ((m : Int) * 2 ^ n)) - 2 ^ 53 * c).natAbs ≤ 1024000 := by
      have hXY : ((2000 * ((m : Int) * 2 ^ n)) - 2 ^ 53 * c) =
          ((2 * ((m : Int) * 2 ^ n) * ((1000 : Nat) : Int)) - 2 ^ 53 * c) := by
        push_cast
        ring
      rw [hXY]
      refine le_trans herr ?_
      have hp : (2 : Nat) ^ n ≤ 1024 := by
        calc (2 : Nat) ^ n ≤ 2 ^ 10 := Nat.pow_le_pow_right (by norm_num) hn
          _ = 1024 := by norm_num
      omega
    have hl1 : ((2 : Int) ^ 53) = 9007199254740992 := by norm_num
    have hl2 : ((2 : Int) ^ 52) = 4503599627370496 := by norm_num
    rw [hl1] at E1
    rw [hl2] at E2
    generalize hY : ((m : Int) * 2 ^ n) = Y at E1 E2
    omega

theorem format_views_M_spec (c : Nat) (h1 : 1000000 ≤ c) (h2 : c < 1000000 * 2 ^ 1023) :
    ∃ t, format_views c = Except.ok (Nat.repr (t / 10) ++ "." ++ Nat.repr (t % 10) ++ "M") ∧
      t % 10 < 10 := by
  obtain ⟨m, n, hsome, -, -, -⟩ := floatDivParts_spec c 1000000 (by norm_num) h1 h2
  refine ⟨if n ≤ 52 then rheNat (10 * m) (2 ^ (52 - n)) else 10 * m * 2 ^ (n - 52), ?_,
    Nat.mod_lt _ (by norm_num)⟩
  rw [format_views, if_pos h1, hsome]
  simp [fmtOneDec]

/-- Counterexample for C4: `format_views` does not return a formatted
string for *every* non-negative integer count — at `10 ^ 315` the float
division `count / 1_000_000` exceeds the largest IEEE-754 double, so
CPython raises `OverflowError` instead of returning a value. -/
theorem C4_counterexample :
    format_views (10 ^ 315) =
      Except.error "OverflowError: integer division result too large for a float" ∧
    ∀ s, format_views (10 ^ 315) ≠ Except.ok s := by
  have h : format_views (10 ^ 315) =
      Except.error "OverflowError: integer division result too large for a float" := by rfl
  refine ⟨h, fun s hs => ?_⟩
  rw [h] at hs
  cases hs

/-- C4 (amended): `format_views` returns the count divided by 1,000,000
with exactly one decimal digit and suffix `M` when `1,000,000 ≤ count <
1,000,000 * 2 ^ 1023` (≈ 9·10^313; for larger counts the float quotient
can overflow, e.g. at `10 ^ 315` Python raises `OverflowError`); the
count divided by 1,000 with exactly one decimal digit and suffix `K`
when `1,000 ≤ count < 1,000,000`, the rendered tenths value `t`
satisfying `|100·t - count| ≤ 50`; and the plain decimal string of the
count when `count < 1,000`.  In particular
`format_views 1500000 = "1.5M"`, `format_views 5000 = "5.0K"`,
`format_views 500 = "500"`, `format_views 1000 = "1.0K"`,
`format_views 1000000 = "1.0M"`, and `format_views 0 = "0"`. -/
theorem C4_format_views :
    format_views 1500000 = Except.ok "1.5M" ∧
    format_views 5000 = Except.ok "5.0K" ∧
    format_views 500 = Except.ok "500" ∧
    format_views 1000 = Except.ok "1.0K" ∧
    format_views 1000000 = Except.ok "1.0M" ∧
    format_views 0 = Except.ok "0" ∧
    (∀ c : Nat, c < 1000 → format_views c = Except.ok (Nat.repr c)) ∧
    (∀ c : Nat, 1000 ≤ c → c < 1000000 →
      ∃ t, format_views c = Except.ok (Nat.repr (t / 10) ++ "." ++ Nat.repr (t % 10) ++ "K") ∧
        t % 10 < 10 ∧ ((100 * (t : Int)) - c).natAbs ≤ 50) ∧
    (∀ c : Nat, 1000000 ≤ c → c < 1000000 * 2 ^ 1023 →
      ∃ t, format_views c = Except.ok (Nat.repr (t / 10) ++ "." ++ Nat.repr (t % 10) ++ "M") ∧
        t % 10 < 10) := by
  refine ⟨by rfl, by rfl, by rfl, by rfl, by rfl, by rfl, ?_, format_views_K_spec,
    format_views_M_spec⟩
  intro c hc
  rw [format_views, if_neg (by omega), if_neg (by omega)]

/-- Witness for C4 in all three regimes. -/
theorem C4_format_views_witness :
    format_views 7 = Except.ok (Nat.repr 7) ∧
    (∃ t, format_views 2500 =
        Except.ok (Nat.repr (t / 10) ++ "." ++ Nat.repr (t % 10) ++ "K") ∧
      t % 10 < 10 ∧ ((100 * (t : Int)) - 2500).natAbs ≤ 50) ∧
    (∃ t, format_views 2000000 =
        Except.ok (Nat.repr (t / 10) ++ "." ++ Nat.repr (t % 10) ++ "M") ∧
      t % 10 < 10) :=
  ⟨C4_format_views.2.2.2.2.2.2.1 7 (by norm_num),
   C4_format_views.2.2.2.2.2.2.2.1 2500 (by norm_num) (by norm_num),
   C4_format_views.2.2.2.2.2.2.2.2 2000000 (by norm_num) (by norm_num)⟩
